import Mathlib

/-!
Verification development for the Talleres HTTP API (`src/index.js`).

The API manages workshop ("taller") records in a DynamoDB table `Talleres`
and binary images in an S3 bucket.  We shallowly embed the data model, the
two stores, and the five route handlers as pure Lean functions, and prove
the specification's claims about them.

Conventions of the embedding:
* `req.body` string fields arrive as `Option String`; JavaScript falsiness
  of a string (`undefined` or `""`) is `falsy`.
* Server-generated values (UUIDs, `new Date().toISOString()`, generated
  file names) are passed in as explicit parameters.
* Each handler returns its HTTP status, the new state of both stores, and a
  trace of the AWS calls it performed, in order.
* Fallibility of S3 calls is modelled by explicit `Bool` oracles
  (`s3ok`, `listOk`, `deleteOk`); a failed call leaves the stores unchanged
  and the surrounding `try/catch` produces status 500.
-/

namespace ApiAws

/-- JavaScript falsiness of an optional string: `undefined` or `""`. -/
def falsy : Option String → Bool
  | none => true
  | some s => s = ""

/-- Semantics of `x || null` on an optional string field (`""` collapses to null). -/
def orNull (x : Option String) : Option String :=
  if falsy x then none else x

/-- Semantics of `x || default` on an optional string field. -/
def orDefault (x : Option String) (d : String) : String :=
  match x with
  | none => d
  | some s => if s = "" then d else s

/-- A slide stored inside a taller record (`nuevoSlide` shape in the source). -/
structure Slide where
  id : String
  titulo : String
  descripcion : String
  imagenUrl : Option String
  createdAt : String
  deriving Repr, DecidableEq

/-- A workshop record in the `Talleres` DynamoDB table (`tallerParams.Item`
shape).  `slides = none` models the attribute being absent from the item;
`updatedAt = none` likewise (it only appears after the first slide update). -/
structure Taller where
  id : String
  nombre : String
  descripcion : String
  duracion : Option String
  nivelDificultad : String
  materiales : Option String
  objetivos : Option String
  finalidades : Option String
  ciencia : Option String
  tecnologia : Option String
  ingenieria : Option String
  matematicas : Option String
  portadaUrl : String
  carpetaS3 : String
  createdAt : String
  updatedAt : Option String
  slides : Option (List Slide)
  deriving Repr, DecidableEq

/-- The `Talleres` table: a list of items, looked up by the `id` key. -/
abbrev RecordStore := List Taller

/-- Models `dynamoDB.get` by the `id` key. -/
def dbGet (db : RecordStore) (id : String) : Option Taller :=
  db.find? (fun t => t.id == id)

/-- Models `dynamoDB.put`: unconditional insert/overwrite of the item with that key. -/
def dbPut (db : RecordStore) (t : Taller) : RecordStore :=
  t :: db.filter (fun u => u.id != t.id)

/-- Models `dynamoDB.delete` by the `id` key. -/
def dbDelete (db : RecordStore) (id : String) : RecordStore :=
  db.filter (fun u => u.id != id)

/-- The S3 bucket: a list of (key, body) objects. -/
structure S3Store where
  objects : List (String × String)
  deriving Repr, DecidableEq

/-- The `Location` returned by `s3.upload` for a key. -/
def s3Location (key : String) : String :=
  "https://bucket.s3.amazonaws.com/" ++ key

/-- Models `s3.upload`: stores the object under its key. -/
def s3UploadObj (s3 : S3Store) (key body : String) : S3Store :=
  ⟨s3.objects ++ [(key, body)]⟩

/-- Whether the first character list is an initial segment of the second. -/
def listIsPfxOf : List Char → List Char → Bool
  | [], _ => true
  | _ :: _, [] => false
  | a :: as, b :: bs => a == b && listIsPfxOf as bs

/-- Key-prefix matching as S3 applies it to object keys. -/
def keyHasPfx (pfx k : String) : Bool :=
  listIsPfxOf pfx.data k.data

/-- Models `s3.listObjectsV2` with a key prefix and page size `pageLimit` (1000 for AWS):
returns the first page of matching keys and the `IsTruncated` flag. -/
def s3ListPage (s3 : S3Store) (pfx : String) (pageLimit : Nat) :
    List String × Bool :=
  let matching := (s3.objects.map Prod.fst).filter (fun k => keyHasPfx pfx k)
  (matching.take pageLimit, decide (pageLimit < matching.length))

/-- Models `s3.deleteObjects` on a list of keys. -/
def s3DeleteKeys (s3 : S3Store) (keys : List String) : S3Store :=
  ⟨s3.objects.filter (fun kv => !(keys.contains kv.1))⟩

/-- A file accepted by multer (`req.file`). -/
structure FileUpload where
  originalname : String
  mimetype : String
  content : String
  deriving Repr, DecidableEq

/-- One AWS call made by a handler, recorded in order. -/
inductive StoreOp where
  | dynamoGet (id : String)
  | dynamoPut (id : String)
  | dynamoUpdate (id : String)
  | dynamoDelete (id : String)
  | s3Upload (key : String)
  | s3List (pfx : String)
  | s3DeleteObjects (keys : List String)
  deriving Repr, DecidableEq

/-! ## The slide append (`POST /talleres/:tallerId/slides`) -/

/-- The source's `taller.Item.slides ? taller.Item.slides.length + 1 : 1` — the number of
the new slide, computed from the fetched snapshot of the `slides` attribute
(an empty array is truthy in JavaScript, so it takes the `length + 1` arm). -/
def slideNumber (slidesField : Option (List Slide)) : Nat :=
  match slidesField with
  | some l => l.length + 1
  | none => 1

/-- The `nuevoSlide` object built by the handler. -/
def nuevoSlideFor (slidesField : Option (List Slide)) (slideId descr : String)
    (imagenUrl : Option String) (now : String) : Slide :=
  { id := slideId
    titulo := "Paso " ++ toString (slideNumber slidesField)
    descripcion := descr
    imagenUrl := imagenUrl
    createdAt := now }

/-- The two update expressions the handler can send to DynamoDB. -/
inductive UpdateExpr where
  /-- Expression `SET slides = list_append(slides, :nuevo_slide), updatedAt = :updatedAt` -/
  | listAppend (newSlides : List Slide) (updatedAt : String)
  /-- Expression `SET slides = :nuevo_slide, updatedAt = :updatedAt` -/
  | setList (newSlides : List Slide) (updatedAt : String)
  deriving Repr, DecidableEq

/-- The source's `if (taller.Item.slides && taller.Item.slides.length > 0)` — chooses the
update expression from the fetched snapshot (a client-side read). -/
def buildUpdate (slidesField : Option (List Slide)) (nuevo : Slide)
    (now : String) : UpdateExpr :=
  match slidesField with
  | some l =>
      if l.length > 0 then .listAppend [nuevo] now else .setList [nuevo] now
  | none => .setList [nuevo] now

/-- DynamoDB's server-side semantics of one update expression, applied
atomically to the current item.  `list_append(slides, …)` on an item whose
`slides` attribute is absent fails the whole update (returns `none`);
`SET slides = :v` always succeeds and overwrites. -/
def applyUpdateExpr : UpdateExpr → Taller → Option Taller
  | .listAppend new ts, t =>
      match t.slides with
      | some l => some { t with slides := some (l ++ new), updatedAt := some ts }
      | none => none
  | .setList new ts, t =>
      some { t with slides := some new, updatedAt := some ts }

/-- Models `dynamoDB.update` with ReturnValues ALL_NEW: applies the expression
to the item with the given key and returns the updated item and table.
(The upsert-on-missing-key corner of DynamoDB is not exercised by these
flows, which check existence first; it is modelled as a failed update.) -/
def dbUpdate (db : RecordStore) (id : String) (e : UpdateExpr) :
    Option (Taller × RecordStore) :=
  match dbGet db id with
  | some t =>
      match applyUpdateExpr e t with
      | some updated => some (updated, dbPut db updated)
      | none => none
  | none => none

/-- Request to `POST /talleres/:tallerId/slides`. -/
structure AddSlideReq where
  tallerId : String
  descripcion : Option String
  imagen : Option FileUpload
  deriving Repr, DecidableEq

/-- Result of the add-slide handler. -/
structure AddSlideResult where
  status : Nat
  slide : Option Slide
  taller : Option Taller
  db : RecordStore
  s3 : S3Store
  trace : List StoreOp
  deriving Repr, DecidableEq

/-- The `POST /talleres/:tallerId/slides` handler.  `slideId` models
`uuidv4()` for the slide, `imagenFileName` the generated
`slide-<uuid><ext>` name, `now` the `toISOString()` timestamps, and `s3ok`
whether the (optional) image upload succeeds. -/
def addSlideHandler (req : AddSlideReq) (slideId imagenFileName now : String)
    (s3ok : Bool) (db : RecordStore) (s3 : S3Store) : AddSlideResult :=
  if falsy req.descripcion then
    { status := 400, slide := none, taller := none, db := db, s3 := s3,
      trace := [] }
  else
    match dbGet db req.tallerId with
    | none =>
        { status := 404, slide := none, taller := none, db := db, s3 := s3,
          trace := [.dynamoGet req.tallerId] }
    | some t =>
        let descr := req.descripcion.getD ""
        match req.imagen with
        | some imagen =>
            let key := "talleres/" ++ req.tallerId ++ "/" ++ imagenFileName
            if s3ok then
              let s3' := s3UploadObj s3 key imagen.content
              let imagenUrl := some (s3Location key)
              let nuevo := nuevoSlideFor t.slides slideId descr imagenUrl now
              match dbUpdate db req.tallerId (buildUpdate t.slides nuevo now) with
              | some (updated, db') =>
                  { status := 201, slide := some nuevo, taller := some updated,
                    db := db', s3 := s3',
                    trace := [.dynamoGet req.tallerId, .s3Upload key,
                      .dynamoUpdate req.tallerId] }
              | none =>
                  { status := 500, slide := none, taller := none, db := db,
                    s3 := s3',
                    trace := [.dynamoGet req.tallerId, .s3Upload key] }
            else
              { status := 500, slide := none, taller := none, db := db,
                s3 := s3,
                trace := [.dynamoGet req.tallerId, .s3Upload key] }
        | none =>
            let nuevo := nuevoSlideFor t.slides slideId descr none now
            match dbUpdate db req.tallerId (buildUpdate t.slides nuevo now) with
            | some (updated, db') =>
                { status := 201, slide := some nuevo, taller := some updated,
                  db := db', s3 := s3,
                  trace := [.dynamoGet req.tallerId, .dynamoUpdate req.tallerId] }
            | none =>
                { status := 500, slide := none, taller := none, db := db,
                  s3 := s3, trace := [.dynamoGet req.tallerId] }

/-! ## Creating a taller (`POST /talleres`) -/

/-- Request body + file of `POST /talleres` (multer `upload.single('portada')`). -/
structure CreateTallerReq where
  nombre : Option String
  descripcion : Option String
  duracion : Option String
  nivelDificultad : Option String
  materiales : Option String
  objetivos : Option String
  finalidades : Option String
  ciencia : Option String
  tecnologia : Option String
  ingenieria : Option String
  matematicas : Option String
  portada : Option FileUpload
  deriving Repr, DecidableEq

/-- Result of the create handler. -/
structure CreateResult where
  status : Nat
  item : Option Taller
  db : RecordStore
  s3 : S3Store
  trace : List StoreOp
  deriving Repr, DecidableEq

/-- The `tallerParams.Item` record built by `POST /talleres` (defaults
applied: `|| null` on the optional fields, `|| 'FÁCIL'` on the
difficulty, fresh empty `slides` array). -/
def mkTallerItem (req : CreateTallerReq) (tallerId portadaFileName now : String) :
    Taller :=
  { id := tallerId
    nombre := req.nombre.getD ""
    descripcion := req.descripcion.getD ""
    duracion := orNull req.duracion
    nivelDificultad := orDefault req.nivelDificultad "FÁCIL"
    materiales := orNull req.materiales
    objetivos := orNull req.objetivos
    finalidades := orNull req.finalidades
    ciencia := orNull req.ciencia
    tecnologia := orNull req.tecnologia
    ingenieria := orNull req.ingenieria
    matematicas := orNull req.matematicas
    portadaUrl := s3Location ("talleres/" ++ tallerId ++ "/" ++ portadaFileName)
    carpetaS3 := "talleres/" ++ tallerId ++ "/"
    createdAt := now
    updatedAt := none
    slides := some [] }

/-- The `POST /talleres` handler.  `tallerId` models `uuidv4()`,
`portadaFileName` the generated `portada-<uuid><ext>` name, `now` the
`createdAt` timestamp, and `s3ok` whether `s3.upload` succeeds. -/
def createTallerHandler (req : CreateTallerReq)
    (tallerId portadaFileName now : String) (s3ok : Bool)
    (db : RecordStore) (s3 : S3Store) : CreateResult :=
  if falsy req.nombre || falsy req.descripcion then
    { status := 400, item := none, db := db, s3 := s3, trace := [] }
  else
    match req.portada with
    | none => { status := 400, item := none, db := db, s3 := s3, trace := [] }
    | some portada =>
        let key := "talleres/" ++ tallerId ++ "/" ++ portadaFileName
        if s3ok then
          let s3' := s3UploadObj s3 key portada.content
          let item := mkTallerItem req tallerId portadaFileName now
          { status := 201, item := some item, db := dbPut db item, s3 := s3',
            trace := [.s3Upload key, .dynamoPut tallerId] }
        else
          { status := 500, item := none, db := db, s3 := s3,
            trace := [.s3Upload key] }

/-! ## Listing talleres (`GET /talleres`) -/

/-- A DynamoDB attribute value as it appears in a scanned item. -/
inductive AttrValue where
  | s (v : String)
  | nullV
  | slideList (v : List Slide)
  deriving Repr, DecidableEq

/-- The attributes of a taller item, by attribute name (for projection).
Absent attributes (`updatedAt` before any update, `slides` when missing)
yield `none` and are omitted from projected items. -/
def getAttr (t : Taller) : String → Option AttrValue := fun f =>
  if f = "id" then some (.s t.id)
  else if f = "nombre" then some (.s t.nombre)
  else if f = "descripcion" then some (.s t.descripcion)
  else if f = "duracion" then some ((t.duracion.map .s).getD .nullV)
  else if f = "nivelDificultad" then some (.s t.nivelDificultad)
  else if f = "materiales" then some ((t.materiales.map .s).getD .nullV)
  else if f = "objetivos" then some ((t.objetivos.map .s).getD .nullV)
  else if f = "finalidades" then some ((t.finalidades.map .s).getD .nullV)
  else if f = "ciencia" then some ((t.ciencia.map .s).getD .nullV)
  else if f = "tecnologia" then some ((t.tecnologia.map .s).getD .nullV)
  else if f = "ingenieria" then some ((t.ingenieria.map .s).getD .nullV)
  else if f = "matematicas" then some ((t.matematicas.map .s).getD .nullV)
  else if f = "portadaUrl" then some (.s t.portadaUrl)
  else if f = "carpetaS3" then some (.s t.carpetaS3)
  else if f = "createdAt" then some (.s t.createdAt)
  else if f = "updatedAt" then t.updatedAt.map .s
  else if f = "slides" then t.slides.map .slideList
  else none

/-- DynamoDB projection: keep, in order, the requested attributes the item
actually has, as (name, value) pairs. -/
def projectItem (fields : List String) (t : Taller) :
    List (String × AttrValue) :=
  fields.filterMap (fun f => (getAttr t f).map (fun v => (f, v)))

/-- The `ProjectionExpression` of the `GET /talleres` scan. -/
def projectionFields : List String :=
  ["id", "nombre", "descripcion", "duracion", "nivelDificultad",
   "portadaUrl", "createdAt"]

/-- The `GET /talleres` handler: a projected scan of the whole table. -/
def listTalleresHandler (db : RecordStore) : List (List (String × AttrValue)) :=
  db.map (projectItem projectionFields)

/-! ## Deleting a taller (`DELETE /talleres/:tallerId`) -/

/-- Result of the delete handler.  `warnings` models `console.warn` output. -/
structure DeleteResult where
  status : Nat
  db : RecordStore
  s3 : S3Store
  warnings : List String
  trace : List StoreOp
  deriving Repr, DecidableEq

/-- The `DELETE /talleres/:tallerId` handler.  `pageLimit` is the S3 listing
page size (1000 for AWS); `listOk` and `deleteOk` model whether
`listObjectsV2` and `deleteObjects` succeed (a bulk delete that fails is
modelled as removing nothing). -/
def deleteTallerHandler (tallerId : String) (pageLimit : Nat)
    (listOk deleteOk : Bool) (db : RecordStore) (s3 : S3Store) : DeleteResult :=
  match dbGet db tallerId with
  | none =>
      { status := 404, db := db, s3 := s3, warnings := [],
        trace := [.dynamoGet tallerId] }
  | some _ =>
      let pfx := "talleres/" ++ tallerId ++ "/"
      if listOk then
        let page := s3ListPage s3 pfx pageLimit
        if page.1.length > 0 then
          if deleteOk then
            let s3' := s3DeleteKeys s3 page.1
            let warnings :=
              if page.2 then
                ["El taller tiene más de 1000 objetos, no todos fueron eliminados"]
              else []
            { status := 200, db := dbDelete db tallerId, s3 := s3',
              warnings := warnings,
              trace := [.dynamoGet tallerId, .s3List pfx,
                .s3DeleteObjects page.1, .dynamoDelete tallerId] }
          else
            { status := 500, db := db, s3 := s3, warnings := [],
              trace := [.dynamoGet tallerId, .s3List pfx,
                .s3DeleteObjects page.1] }
        else
          { status := 200, db := dbDelete db tallerId, s3 := s3,
            warnings := [],
            trace := [.dynamoGet tallerId, .s3List pfx, .dynamoDelete tallerId] }
      else
        { status := 500, db := db, s3 := s3, warnings := [],
          trace := [.dynamoGet tallerId, .s3List pfx] }

/-! ## Two concurrent slide appends

Each add-slide request is a read phase (the `dynamoDB.get`, which snapshots
the `slides` attribute and from it both the new slide's title and the update
expression are computed) followed by a write phase (the `dynamoDB.update`,
which DynamoDB applies atomically to the current item).  Two concurrent
requests A and B are an interleaving of their read and write events. -/

/-- The four events of two concurrent add-slide requests. -/
inductive WEvent where
  | readA
  | writeA
  | readB
  | writeB
  deriving Repr, DecidableEq

/-- Per-writer inputs: the slide's `uuidv4()`, the request's `descripcion`,
the image URL (if an image was uploaded), and the timestamp. -/
structure WriterInput where
  slideId : String
  descr : String
  imagenUrl : Option String
  now : String
  deriving Repr, DecidableEq

/-- State of the record plus the two in-flight requests.  `snapX` is the
snapshot of the `slides` attribute request X read (`none` until its read
runs); `failX` records a rejected update (`list_append` on a missing
attribute). -/
structure ConcState where
  taller : Taller
  snapA : Option (Option (List Slide))
  snapB : Option (Option (List Slide))
  failA : Bool
  failB : Bool
  deriving Repr, DecidableEq

/-- One event of the interleaving.  A read snapshots the current `slides`
attribute; a write builds `nuevoSlide` and the update expression from its
own snapshot and applies the expression atomically to the current item. -/
def concStep (ia ib : WriterInput) (st : ConcState) : WEvent → ConcState
  | .readA => { st with snapA := some st.taller.slides }
  | .readB => { st with snapB := some st.taller.slides }
  | .writeA =>
      match st.snapA with
      | none => st
      | some snap =>
          let nuevo := nuevoSlideFor snap ia.slideId ia.descr ia.imagenUrl ia.now
          match applyUpdateExpr (buildUpdate snap nuevo ia.now) st.taller with
          | some t => { st with taller := t }
          | none => { st with failA := true }
  | .writeB =>
      match st.snapB with
      | none => st
      | some snap =>
          let nuevo := nuevoSlideFor snap ib.slideId ib.descr ib.imagenUrl ib.now
          match applyUpdateExpr (buildUpdate snap nuevo ib.now) st.taller with
          | some t => { st with taller := t }
          | none => { st with failB := true }

/-- Run an interleaving from an initial record. -/
def runSchedule (ia ib : WriterInput) (t0 : Taller) (evs : List WEvent) :
    ConcState :=
  evs.foldl (concStep ia ib)
    { taller := t0, snapA := none, snapB := none, failA := false, failB := false }

/-- A valid interleaving of the two requests: each of the four events occurs
exactly once, and each request's read precedes its write. -/
def ValidSchedule (evs : List WEvent) : Prop :=
  evs.Perm [.readA, .writeA, .readB, .writeB] ∧
    List.Sublist [WEvent.readA, WEvent.writeA] evs ∧
    List.Sublist [WEvent.readB, WEvent.writeB] evs

instance : DecidablePred ValidSchedule := fun evs => by
  unfold ValidSchedule
  infer_instance

/-! ## Store lemmas -/

theorem dbGet_id {db : RecordStore} {id : String} {t : Taller}
    (h : dbGet db id = some t) : t.id = id := by
  have hp := List.find?_some h
  simpa using hp

theorem dbGet_dbPut_self (db : RecordStore) (u : Taller) :
    dbGet (dbPut db u) u.id = some u := by
  simp [dbGet, dbPut, List.find?]

theorem dbUpdate_get {db : RecordStore} {id : String} {t : Taller}
    (hget : dbGet db id = some t) (e : UpdateExpr) :
    dbUpdate db id e = (applyUpdateExpr e t).map (fun u => (u, dbPut db u)) := by
  unfold dbUpdate
  rw [hget]
  cases h : applyUpdateExpr e t <;> simp [h]

/-- Applying the update expression the handler builds from the record's own
`slides` attribute always succeeds and appends the new slide (creating the
list when the attribute is absent), setting `updatedAt` in the same
operation. -/
theorem applyUpdate_build (t : Taller) (nuevo : Slide) (now : String) :
    applyUpdateExpr (buildUpdate t.slides nuevo now) t =
      some { t with slides := some (t.slides.getD [] ++ [nuevo]),
                    updatedAt := some now } := by
  rcases h : t.slides with _ | l
  · simp [buildUpdate, applyUpdateExpr, h]
  · rcases l with _ | ⟨a, l⟩
    · simp [buildUpdate, applyUpdateExpr, h]
    · simp [buildUpdate, applyUpdateExpr, h]

/-! ## Sample data for concrete witnesses -/

/-- A sample freshly created taller (as `POST /talleres` writes it). -/
def tallerT1 : Taller :=
  { id := "T1", nombre := "Robótica", descripcion := "Taller de robótica"
    duracion := none, nivelDificultad := "FÁCIL", materiales := none
    objetivos := none, finalidades := none, ciencia := none
    tecnologia := none, ingenieria := none, matematicas := none
    portadaUrl := s3Location "talleres/T1/portada-p.png"
    carpetaS3 := "talleres/T1/", createdAt := "2024-01-01T00:00:00.000Z"
    updatedAt := none, slides := some [] }

/-- A sample S3 bucket holding T1's cover image. -/
def s3T1 : S3Store := ⟨[("talleres/T1/portada-p.png", "bytes")]⟩

/-- Full reduction of a successful `addSlideHandler` call (workshop found,
description present, upload succeeding). -/
theorem addSlideHandler_success {tid : String} {descr : Option String}
    (imagen : Option FileUpload) (slideId imagenFileName now : String)
    (db : RecordStore) (s3 : S3Store) {t : Taller}
    (hget : dbGet db tid = some t) (hdescr : falsy descr = false) :
    addSlideHandler ⟨tid, descr, imagen⟩ slideId imagenFileName now true db s3 =
      { status := 201
        slide := some (nuevoSlideFor t.slides slideId (descr.getD "")
          (imagen.map (fun _ =>
            s3Location ("talleres/" ++ tid ++ "/" ++ imagenFileName))) now)
        taller := some { t with
          slides := some (t.slides.getD [] ++
            [nuevoSlideFor t.slides slideId (descr.getD "")
              (imagen.map (fun _ =>
                s3Location ("talleres/" ++ tid ++ "/" ++ imagenFileName))) now])
          updatedAt := some now }
        db := dbPut db { t with
          slides := some (t.slides.getD [] ++
            [nuevoSlideFor t.slides slideId (descr.getD "")
              (imagen.map (fun _ =>
                s3Location ("talleres/" ++ tid ++ "/" ++ imagenFileName))) now])
          updatedAt := some now }
        s3 := match imagen with
          | some img => s3UploadObj s3
              ("talleres/" ++ tid ++ "/" ++ imagenFileName) img.content
          | none => s3
        trace := match imagen with
          | some _ => [.dynamoGet tid,
              .s3Upload ("talleres/" ++ tid ++ "/" ++ imagenFileName),
              .dynamoUpdate tid]
          | none => [.dynamoGet tid, .dynamoUpdate tid] } := by
  rcases imagen with _ | img
  · simp only [addSlideHandler, hdescr, Bool.false_eq_true, if_false, hget,
      dbUpdate_get hget, applyUpdate_build]
    rfl
  · simp only [addSlideHandler, hdescr, Bool.false_eq_true, if_false, hget,
      dbUpdate_get hget, applyUpdate_build]
    rfl

/-- C2: an `AddSlide` call without concurrent writers, on an existing
workshop and with a non-empty description, returns 201; the updated record
has the old slides list with the new slide appended at its end (a
single-element list if the attribute was absent), its `updatedAt` is set by
the same update expression, and the full updated record is both stored and
returned in the response. -/
theorem addSlide_sequential_correct (req : AddSlideReq)
    (slideId imagenFileName now : String) (db : RecordStore) (s3 : S3Store)
    (t : Taller) (hget : dbGet db req.tallerId = some t)
    (hdescr : falsy req.descripcion = false) :
    (addSlideHandler req slideId imagenFileName now true db s3).status = 201 ∧
    ∃ updated,
      (addSlideHandler req slideId imagenFileName now true db s3).taller =
        some updated ∧
      dbGet (addSlideHandler req slideId imagenFileName now true db s3).db
        req.tallerId = some updated ∧
      updated.slides = some (t.slides.getD [] ++
        [nuevoSlideFor t.slides slideId (req.descripcion.getD "")
          (req.imagen.map (fun _ =>
            s3Location ("talleres/" ++ req.tallerId ++ "/" ++ imagenFileName)))
          now]) ∧
      updated.updatedAt = some now ∧
      (addSlideHandler req slideId imagenFileName now true db s3).slide =
        some (nuevoSlideFor t.slides slideId (req.descripcion.getD "")
          (req.imagen.map (fun _ =>
            s3Location ("talleres/" ++ req.tallerId ++ "/" ++ imagenFileName)))
          now) := by
  rcases req with ⟨tid, descr, imagen⟩
  have hid := dbGet_id hget
  subst hid
  rw [addSlideHandler_success imagen slideId imagenFileName now db s3 hget hdescr]
  refine ⟨rfl, _, rfl, ?_, rfl, rfl, rfl⟩
  exact dbGet_dbPut_self db _

/-- Concrete witness for `addSlide_sequential_correct` (claim C2). -/
theorem addSlide_sequential_correct_witness :
    dbGet [tallerT1] "T1" = some tallerT1 ∧
    falsy (some "montar la base") = false ∧
    ((addSlideHandler ⟨"T1", some "montar la base", none⟩ "S1" "f.png"
        "2025-01-01T00:00:00.000Z" true [tallerT1] s3T1).status = 201 ∧
      ∃ updated,
        (addSlideHandler ⟨"T1", some "montar la base", none⟩ "S1" "f.png"
          "2025-01-01T00:00:00.000Z" true [tallerT1] s3T1).taller =
            some updated ∧
        dbGet (addSlideHandler ⟨"T1", some "montar la base", none⟩ "S1" "f.png"
          "2025-01-01T00:00:00.000Z" true [tallerT1] s3T1).db "T1" =
            some updated ∧
        updated.slides = some (tallerT1.slides.getD [] ++
          [nuevoSlideFor tallerT1.slides "S1" "montar la base" none
            "2025-01-01T00:00:00.000Z"]) ∧
        updated.updatedAt = some "2025-01-01T00:00:00.000Z" ∧
        (addSlideHandler ⟨"T1", some "montar la base", none⟩ "S1" "f.png"
          "2025-01-01T00:00:00.000Z" true [tallerT1] s3T1).slide =
            some (nuevoSlideFor tallerT1.slides "S1" "montar la base" none
              "2025-01-01T00:00:00.000Z")) :=
  ⟨by decide, by decide,
    addSlide_sequential_correct ⟨"T1", some "montar la base", none⟩ "S1"
      "f.png" "2025-01-01T00:00:00.000Z" [tallerT1] s3T1 tallerT1
      (by decide) (by decide)⟩

/-! ## Sequential slide appends (claim C3) -/

/-- The per-request inputs of one sequential add-slide call. -/
structure AddInput where
  slideId : String
  descr : String
  imagen : Option FileUpload
  imagenFileName : String
  now : String
  deriving Repr, DecidableEq

/-- One sequential `POST /talleres/:tallerId/slides` call (all S3 uploads
succeeding), threading both stores. -/
def seqStep (tid : String) (st : RecordStore × S3Store) (i : AddInput) :
    RecordStore × S3Store :=
  let r := addSlideHandler ⟨tid, some i.descr, i.imagen⟩ i.slideId
    i.imagenFileName i.now true st.1 st.2
  (r.db, r.s3)

/-- Run a sequence of add-slide calls, one after the other. -/
def runAddSlides (tid : String) (inputs : List AddInput) (db : RecordStore)
    (s3 : S3Store) : RecordStore × S3Store :=
  inputs.foldl (seqStep tid) (db, s3)

/-- The slide the `pos`-th append (0-based, with `pos` slides already
present) is expected to produce. -/
def expectedSlide (tid : String) (pos : Nat) (i : AddInput) : Slide :=
  { id := i.slideId
    titulo := "Paso " ++ toString (pos + 1)
    descripcion := i.descr
    imagenUrl := i.imagen.map (fun _ =>
      s3Location ("talleres/" ++ tid ++ "/" ++ i.imagenFileName))
    createdAt := i.now }

/-- Slides expected from a run of appends starting with `start` slides
already present. -/
def expectedSlides (tid : String) (start : Nat) : List AddInput → List Slide
  | [] => []
  | i :: rest => expectedSlide tid start i :: expectedSlides tid (start + 1) rest

theorem expectedSlides_length (tid : String) (start : Nat)
    (inputs : List AddInput) :
    (expectedSlides tid start inputs).length = inputs.length := by
  induction inputs generalizing start with
  | nil => rfl
  | cons i rest ih => simp [expectedSlides, ih]

theorem expectedSlides_get (tid : String) (start : Nat)
    (inputs : List AddInput) (j : Nat) (hj : j < inputs.length)
    (hj2 : j < (expectedSlides tid start inputs).length) :
    (expectedSlides tid start inputs).get ⟨j, hj2⟩ =
      expectedSlide tid (start + j) (inputs.get ⟨j, hj⟩) := by
  induction inputs generalizing start j with
  | nil => exact absurd hj (by simp)
  | cons i rest ih =>
      cases j with
      | zero => simp [expectedSlides]
      | succ k =>
          have hk : k < rest.length := by simpa using hj
          have hk2 : k < (expectedSlides tid (start + 1) rest).length := by
            simpa [expectedSlides] using hj2
          simpa [expectedSlides, Nat.add_assoc, Nat.add_comm 1 k]
            using ih (start + 1) k hk hk2

/-- The new slide built from a snapshot holding `l` is the expected slide
at position `l.length`. -/
theorem nuevoSlideFor_expected (tid : String) (l : List Slide) (i : AddInput) :
    nuevoSlideFor (some l) i.slideId i.descr
      (i.imagen.map (fun _ =>
        s3Location ("talleres/" ++ tid ++ "/" ++ i.imagenFileName))) i.now =
    expectedSlide tid l.length i := by
  simp [nuevoSlideFor, slideNumber, expectedSlide]

/-- Main invariant of sequential appends: starting from a record whose
`slides` attribute holds `l`, running the inputs appends exactly the
expected slides, in order. -/
theorem runAddSlides_slides (tid : String) (inputs : List AddInput)
    (db : RecordStore) (s3 : S3Store) (t : Taller) (l : List Slide)
    (hget : dbGet db tid = some t) (hsl : t.slides = some l)
    (hdescr : ∀ i ∈ inputs, i.descr ≠ "") :
    ∃ t', dbGet (runAddSlides tid inputs db s3).1 tid = some t' ∧
      t'.slides = some (l ++ expectedSlides tid l.length inputs) := by
  induction inputs generalizing db s3 t l with
  | nil =>
      refine ⟨t, by simpa [runAddSlides] using hget, by simp [hsl, expectedSlides]⟩
  | cons i rest ih =>
      have hid := dbGet_id hget
      have hf : falsy (some i.descr) = false := by
        have := hdescr i (List.mem_cons_self i rest)
        simpa [falsy] using this
      have hstep := addSlideHandler_success i.imagen i.slideId i.imagenFileName
        i.now db s3 hget hf
      rw [runAddSlides, List.foldl_cons]
      have hseq : seqStep tid (db, s3) i =
          ((addSlideHandler ⟨tid, some i.descr, i.imagen⟩ i.slideId
            i.imagenFileName i.now true db s3).db,
           (addSlideHandler ⟨tid, some i.descr, i.imagen⟩ i.slideId
            i.imagenFileName i.now true db s3).s3) := rfl
      rw [hseq, hstep]
      set nuevo := nuevoSlideFor t.slides i.slideId ((some i.descr).getD "")
        (i.imagen.map (fun _ =>
          s3Location ("talleres/" ++ tid ++ "/" ++ i.imagenFileName))) i.now
        with hnuevo
      set updated : Taller := { t with
        slides := some (t.slides.getD [] ++ [nuevo])
        updatedAt := some i.now } with hupd
      have hget' : dbGet (dbPut db updated) tid = some updated := by
        have h0 : updated.id = tid := hid
        have := dbGet_dbPut_self db updated
        rwa [h0] at this
      have hsl' : updated.slides = some (l ++ [expectedSlide tid l.length i]) := by
        simp only [hupd, hnuevo, hsl, Option.getD_some]
        simp [nuevoSlideFor, slideNumber, expectedSlide]
      obtain ⟨t', ht1, ht2⟩ := ih (dbPut db updated)
        (match i.imagen with
          | some img => s3UploadObj s3
              ("talleres/" ++ tid ++ "/" ++ i.imagenFileName) img.content
          | none => s3)
        updated (l ++ [expectedSlide tid l.length i]) hget' hsl'
        (fun j hj => hdescr j (List.mem_cons_of_mem i hj))
      refine ⟨t', ht1, ?_⟩
      rw [ht2]
      simp [expectedSlides, List.append_assoc]

/-- Counterexample to claim C3 as stated: the handler titles slides
`"Paso <n>"` (Spanish), not `"Step <n>"`.  The first slide appended to a
fresh workshop is titled `"Paso 1"`, which differs from `"Step 1"`. -/
theorem addSlide_title_is_Paso_not_Step :
    ((addSlideHandler ⟨"T1", some "montar la base", none⟩ "S1" "f.png"
        "2025-01-01T00:00:00.000Z" true [tallerT1] s3T1).slide.map
      Slide.titulo) = some "Paso 1" ∧
    some "Paso 1" ≠ some "Step 1" := by
  exact ⟨by decide, by decide⟩

/-- C3 (amended: the title prefix is the Spanish `"Paso "`, not `"Step "`):
appending N slides sequentially (no concurrency) to a workshop whose slides
list starts empty yields N slides in insertion order, the j-th titled
`"Paso (j+1)"` — one plus the count of slides present at its append time —
and each slide's `id`, `descripcion` and image URL derived from exactly what
was sent in the corresponding request. -/
theorem addSlide_sequential_numbering (tid : String) (inputs : List AddInput)
    (db : RecordStore) (s3 : S3Store) (t : Taller)
    (hget : dbGet db tid = some t) (hsl : t.slides = some [])
    (hdescr : ∀ i ∈ inputs, i.descr ≠ "") :
    ∃ t' l, dbGet (runAddSlides tid inputs db s3).1 tid = some t' ∧
      t'.slides = some l ∧
      l.length = inputs.length ∧
      ∀ (j : Nat) (hj : j < l.length) (hj2 : j < inputs.length),
        (l.get ⟨j, hj⟩).titulo = "Paso " ++ toString (j + 1) ∧
        (l.get ⟨j, hj⟩).id = (inputs.get ⟨j, hj2⟩).slideId ∧
        (l.get ⟨j, hj⟩).descripcion = (inputs.get ⟨j, hj2⟩).descr ∧
        (l.get ⟨j, hj⟩).imagenUrl = (inputs.get ⟨j, hj2⟩).imagen.map
          (fun _ => s3Location ("talleres/" ++ tid ++ "/" ++
            (inputs.get ⟨j, hj2⟩).imagenFileName)) := by
  obtain ⟨t', h1, h2⟩ := runAddSlides_slides tid inputs db s3 t [] hget hsl hdescr
  refine ⟨t', expectedSlides tid 0 inputs, h1, by simpa using h2,
    expectedSlides_length tid 0 inputs, ?_⟩
  intro j hj hj2
  rw [expectedSlides_get tid 0 inputs j hj2 hj]
  simp [expectedSlide]

/-- Concrete witness for `addSlide_sequential_numbering` (claim C3):
two sequential appends yield slides titled "Paso 1", "Paso 2". -/
theorem addSlide_sequential_numbering_witness :
    dbGet [tallerT1] "T1" = some tallerT1 ∧
    tallerT1.slides = some [] ∧
    (∀ i ∈ [AddInput.mk "S1" "paso uno" none "fa.png" "t1",
            AddInput.mk "S2" "paso dos" none "fb.png" "t2"], i.descr ≠ "") ∧
    (∃ t' l, dbGet (runAddSlides "T1"
        [AddInput.mk "S1" "paso uno" none "fa.png" "t1",
         AddInput.mk "S2" "paso dos" none "fb.png" "t2"]
        [tallerT1] s3T1).1 "T1" = some t' ∧
      t'.slides = some l ∧
      l.length = [AddInput.mk "S1" "paso uno" none "fa.png" "t1",
                  AddInput.mk "S2" "paso dos" none "fb.png" "t2"].length ∧
      ∀ (j : Nat) (hj : j < l.length)
        (hj2 : j < [AddInput.mk "S1" "paso uno" none "fa.png" "t1",
                    AddInput.mk "S2" "paso dos" none "fb.png" "t2"].length),
        (l.get ⟨j, hj⟩).titulo = "Paso " ++ toString (j + 1) ∧
        (l.get ⟨j, hj⟩).id = ([AddInput.mk "S1" "paso uno" none "fa.png" "t1",
            AddInput.mk "S2" "paso dos" none "fb.png" "t2"].get
              ⟨j, hj2⟩).slideId ∧
        (l.get ⟨j, hj⟩).descripcion =
          ([AddInput.mk "S1" "paso uno" none "fa.png" "t1",
            AddInput.mk "S2" "paso dos" none "fb.png" "t2"].get
              ⟨j, hj2⟩).descr ∧
        (l.get ⟨j, hj⟩).imagenUrl =
          ([AddInput.mk "S1" "paso uno" none "fa.png" "t1",
            AddInput.mk "S2" "paso dos" none "fb.png" "t2"].get
              ⟨j, hj2⟩).imagen.map
            (fun _ => s3Location ("talleres/" ++ "T1" ++ "/" ++
              ([AddInput.mk "S1" "paso uno" none "fa.png" "t1",
                AddInput.mk "S2" "paso dos" none "fb.png" "t2"].get
                  ⟨j, hj2⟩).imagenFileName))) :=
  ⟨by decide, rfl, by decide,
    addSlide_sequential_numbering "T1"
      [AddInput.mk "S1" "paso uno" none "fa.png" "t1",
       AddInput.mk "S2" "paso dos" none "fb.png" "t2"]
      [tallerT1] s3T1 tallerT1 (by decide) rfl (by decide)⟩

/-! ## Claim C1: two concurrent appends -/

/-- Counterexample to claim C1 as stated: the update expression is chosen
from a client-side read.  On a workshop whose `slides` list is empty (as
`POST /talleres` creates it), the interleaving read-A, read-B, write-A,
write-B makes both requests take the `SET slides = :nuevo_slide` overwrite
branch: both succeed (neither update is rejected), yet the final list holds
1 element, not 0 + 2 — a lost update. -/
theorem addSlide_concurrent_lost_update :
    ValidSchedule [.readA, .readB, .writeA, .writeB] ∧
    tallerT1.slides = some [] ∧
    (runSchedule ⟨"SA", "a", none, "tA"⟩ ⟨"SB", "b", none, "tB"⟩ tallerT1
        [.readA, .readB, .writeA, .writeB]).failA = false ∧
    (runSchedule ⟨"SA", "a", none, "tA"⟩ ⟨"SB", "b", none, "tB"⟩ tallerT1
        [.readA, .readB, .writeA, .writeB]).failB = false ∧
    ((runSchedule ⟨"SA", "a", none, "tA"⟩ ⟨"SB", "b", none, "tB"⟩ tallerT1
        [.readA, .readB, .writeA, .writeB]).taller.slides.getD []).length = 1 ∧
    (1 : Nat) ≠ 0 + 2 := by
  exact ⟨by decide, rfl, by decide, by decide, by decide, by decide⟩

/-- C1 (amended): the no-lost-update property holds exactly when both
requests observe a nonempty `slides` list — in particular whenever the
workshop's `slides` list is nonempty before either request starts.  Then
every valid interleaving of the two reads and two (atomic `list_append`)
writes succeeds on both sides and yields exactly 2 more slides.  (When the
list starts empty the overwrite branch is chosen from the client-side read
and an interleaving loses an update, per the counterexample.) -/
theorem addSlide_concurrent_nonempty (ia ib : WriterInput) (t0 : Taller)
    (x : Slide) (xs : List Slide) (hsl : t0.slides = some (x :: xs))
    (evs : List WEvent) (hv : ValidSchedule evs) :
    (runSchedule ia ib t0 evs).failA = false ∧
    (runSchedule ia ib t0 evs).failB = false ∧
    ((runSchedule ia ib t0 evs).taller.slides.getD []).length =
      (x :: xs).length + 2 := by
  obtain ⟨hperm, hA, hB⟩ := hv
  have hlen := hperm.length_eq
  rcases evs with _ | ⟨e1, _ | ⟨e2, _ | ⟨e3, _ | ⟨e4, _ | ⟨e5, tl⟩⟩⟩⟩⟩ <;>
    simp only [List.length_cons, List.length_nil] at hlen <;>
    try omega
  rcases e1 <;> rcases e2 <;> rcases e3 <;> rcases e4 <;>
    first
      | (exfalso; revert hperm hA hB; decide)
      | (simp [runSchedule, concStep, buildUpdate, applyUpdateExpr,
          nuevoSlideFor, slideNumber, hsl])

/-- A slide already present in a workshop, for the concurrency witness. -/
def slideS0 : Slide :=
  { id := "S0", titulo := "Paso 1", descripcion := "base", imagenUrl := none
    createdAt := "2025-01-01T00:00:00.000Z" }

/-- A workshop whose slides list is nonempty. -/
def tallerT2 : Taller := { tallerT1 with id := "T2", slides := some [slideS0] }

/-- Concrete witness for `addSlide_concurrent_nonempty` (claim C1, amended). -/
theorem addSlide_concurrent_nonempty_witness :
    tallerT2.slides = some (slideS0 :: []) ∧
    ValidSchedule [.readA, .writeA, .readB, .writeB] ∧
    ((runSchedule ⟨"SA", "a", none, "tA"⟩ ⟨"SB", "b", none, "tB"⟩ tallerT2
        [.readA, .writeA, .readB, .writeB]).failA = false ∧
     (runSchedule ⟨"SA", "a", none, "tA"⟩ ⟨"SB", "b", none, "tB"⟩ tallerT2
        [.readA, .writeA, .readB, .writeB]).failB = false ∧
     ((runSchedule ⟨"SA", "a", none, "tA"⟩ ⟨"SB", "b", none, "tB"⟩ tallerT2
        [.readA, .writeA, .readB, .writeB]).taller.slides.getD []).length =
       (slideS0 :: []).length + 2) :=
  ⟨rfl, by decide,
    addSlide_concurrent_nonempty ⟨"SA", "a", none, "tA"⟩ ⟨"SB", "b", none, "tB"⟩
      tallerT2 slideS0 [] rfl [.readA, .writeA, .readB, .writeB] (by decide)⟩

/-! ## Claims about `POST /talleres` (C4, C5, C9) -/

/-- Full reduction of a successful `createTallerHandler` call (validation
passing, upload succeeding). -/
theorem createTallerHandler_success (req : CreateTallerReq)
    (tallerId portadaFileName now : String) (db : RecordStore) (s3 : S3Store)
    (f : FileUpload) (hn : falsy req.nombre = false)
    (hd : falsy req.descripcion = false) (hp : req.portada = some f) :
    createTallerHandler req tallerId portadaFileName now true db s3 =
      { status := 201
        item := some (mkTallerItem req tallerId portadaFileName now)
        db := dbPut db (mkTallerItem req tallerId portadaFileName now)
        s3 := s3UploadObj s3
          ("talleres/" ++ tallerId ++ "/" ++ portadaFileName) f.content
        trace := [.s3Upload ("talleres/" ++ tallerId ++ "/" ++ portadaFileName),
          .dynamoPut tallerId] } := by
  simp only [createTallerHandler, hn, hd, hp, Bool.or_self,
    Bool.false_eq_true, if_false]
  rfl

/-- C4: with valid inputs, the cover image is uploaded to S3 before the
record is written to DynamoDB (the trace shows the upload strictly first);
if the upload fails the handler aborts with a 500 storage error and writes
no record, so a stored workshop record always references a cover object
that exists in the bucket. -/
theorem createTaller_image_then_record (req : CreateTallerReq)
    (tallerId portadaFileName now : String) (s3ok : Bool)
    (db : RecordStore) (s3 : S3Store) (f : FileUpload)
    (hn : falsy req.nombre = false) (hd : falsy req.descripcion = false)
    (hp : req.portada = some f) :
    (s3ok = false →
      (createTallerHandler req tallerId portadaFileName now s3ok db s3).status
          = 500 ∧
      (createTallerHandler req tallerId portadaFileName now s3ok db s3).db
          = db ∧
      (createTallerHandler req tallerId portadaFileName now s3ok db s3).s3
          = s3 ∧
      (createTallerHandler req tallerId portadaFileName now s3ok db s3).item
          = none) ∧
    (s3ok = true →
      (createTallerHandler req tallerId portadaFileName now s3ok db s3).trace
          = [.s3Upload ("talleres/" ++ tallerId ++ "/" ++ portadaFileName),
             .dynamoPut tallerId] ∧
      ∃ item,
        (createTallerHandler req tallerId portadaFileName now s3ok db s3).item
            = some item ∧
        dbGet (createTallerHandler req tallerId portadaFileName now s3ok db
            s3).db tallerId = some item ∧
        item.portadaUrl =
          s3Location ("talleres/" ++ tallerId ++ "/" ++ portadaFileName) ∧
        ("talleres/" ++ tallerId ++ "/" ++ portadaFileName, f.content) ∈
          (createTallerHandler req tallerId portadaFileName now s3ok db
            s3).s3.objects) := by
  constructor
  · rintro rfl
    simp [createTallerHandler, hn, hd, hp]
  · rintro rfl
    rw [createTallerHandler_success req tallerId portadaFileName now db s3 f
      hn hd hp]
    refine ⟨rfl, _, rfl, ?_, rfl, ?_⟩
    · exact dbGet_dbPut_self db _
    · simp [s3UploadObj]

/-- C5: a `POST /talleres` request missing (or with empty) `nombre` or
`descripcion`, or with no cover file, returns 400 and performs no AWS call:
both stores are untouched and no record is created. -/
theorem createTaller_validation_no_write (req : CreateTallerReq)
    (tallerId portadaFileName now : String) (s3ok : Bool)
    (db : RecordStore) (s3 : S3Store)
    (hmiss : falsy req.nombre = true ∨ falsy req.descripcion = true ∨
      req.portada = none) :
    (createTallerHandler req tallerId portadaFileName now s3ok db s3).status
        = 400 ∧
    (createTallerHandler req tallerId portadaFileName now s3ok db s3).db = db ∧
    (createTallerHandler req tallerId portadaFileName now s3ok db s3).s3 = s3 ∧
    (createTallerHandler req tallerId portadaFileName now s3ok db s3).item
        = none ∧
    (createTallerHandler req tallerId portadaFileName now s3ok db s3).trace
        = [] := by
  rcases hmiss with h | h | h
  · simp [createTallerHandler, h]
  · simp [createTallerHandler, h]
  · by_cases h1 : (falsy req.nombre || falsy req.descripcion) = true
    · simp [createTallerHandler, h1]
    · simp [createTallerHandler, h1, h]

/-- Counterexample to claim C9 as stated: with the difficulty field absent,
the stored default is the Spanish `'FÁCIL'`, which differs from `"EASY"`. -/
theorem createTaller_difficulty_not_EASY :
    ((createTallerHandler
        ⟨some "Robótica", some "Taller", none, none, none, none, none, none,
          none, none, none, some ⟨"p.png", "image/png", "bytes"⟩⟩
        "T9" "portada-x.png" "2025-01-01T00:00:00.000Z" true [] ⟨[]⟩).item.map
      Taller.nivelDificultad) = some "FÁCIL" ∧
    some "FÁCIL" ≠ some "EASY" := by
  exact ⟨by decide, by decide⟩

/-- C9 (amended: the default is the Spanish `'FÁCIL'`, the source's
spelling of "EASY"): when `nivelDificultad` is absent from a valid create
request, the created and stored record's difficulty field is `"FÁCIL"`. -/
theorem createTaller_default_difficulty (req : CreateTallerReq)
    (tallerId portadaFileName now : String) (db : RecordStore) (s3 : S3Store)
    (f : FileUpload) (hn : falsy req.nombre = false)
    (hd : falsy req.descripcion = false) (hp : req.portada = some f)
    (hdif : req.nivelDificultad = none) :
    ∃ item,
      (createTallerHandler req tallerId portadaFileName now true db s3).item
          = some item ∧
      dbGet (createTallerHandler req tallerId portadaFileName now true db
          s3).db tallerId = some item ∧
      item.nivelDificultad = "FÁCIL" := by
  rw [createTallerHandler_success req tallerId portadaFileName now db s3 f
    hn hd hp]
  refine ⟨_, rfl, dbGet_dbPut_self db _, ?_⟩
  simp [mkTallerItem, orDefault, hdif]

/-- A sample valid create request (difficulty absent). -/
def reqR : CreateTallerReq :=
  { nombre := some "Robótica", descripcion := some "Taller de robótica"
    duracion := none, nivelDificultad := none, materiales := none
    objetivos := none, finalidades := none, ciencia := none, tecnologia := none
    ingenieria := none, matematicas := none
    portada := some ⟨"p.png", "image/png", "bytes"⟩ }

/-- Concrete witness for `createTaller_image_then_record` (claim C4). -/
theorem createTaller_image_then_record_witness :
    falsy reqR.nombre = false ∧ falsy reqR.descripcion = false ∧
    reqR.portada = some ⟨"p.png", "image/png", "bytes"⟩ ∧
    ((createTallerHandler reqR "T9" "portada-x.png" "2025-01-01T00:00:00.000Z"
        true [] ⟨[]⟩).trace =
      [.s3Upload ("talleres/" ++ "T9" ++ "/" ++ "portada-x.png"),
       .dynamoPut "T9"] ∧
     ∃ item,
       (createTallerHandler reqR "T9" "portada-x.png"
          "2025-01-01T00:00:00.000Z" true [] ⟨[]⟩).item = some item ∧
       dbGet (createTallerHandler reqR "T9" "portada-x.png"
          "2025-01-01T00:00:00.000Z" true [] ⟨[]⟩).db "T9" = some item ∧
       item.portadaUrl =
         s3Location ("talleres/" ++ "T9" ++ "/" ++ "portada-x.png") ∧
       ("talleres/" ++ "T9" ++ "/" ++ "portada-x.png", "bytes") ∈
         (createTallerHandler reqR "T9" "portada-x.png"
            "2025-01-01T00:00:00.000Z" true [] ⟨[]⟩).s3.objects) :=
  ⟨by decide, by decide, by decide,
    (createTaller_image_then_record reqR "T9" "portada-x.png"
      "2025-01-01T00:00:00.000Z" true [] ⟨[]⟩
      ⟨"p.png", "image/png", "bytes"⟩ (by decide) (by decide) (by decide)).2
      rfl⟩

/-- A create request with no cover file. -/
def reqSinPortada : CreateTallerReq := { reqR with portada := none }

/-- Concrete witness for `createTaller_validation_no_write` (claim C5). -/
theorem createTaller_validation_no_write_witness :
    (falsy reqSinPortada.nombre = true ∨
     falsy reqSinPortada.descripcion = true ∨
     reqSinPortada.portada = none) ∧
    ((createTallerHandler reqSinPortada "T9" "portada-x.png"
        "2025-01-01T00:00:00.000Z" true [] ⟨[]⟩).status = 400 ∧
     (createTallerHandler reqSinPortada "T9" "portada-x.png"
        "2025-01-01T00:00:00.000Z" true [] ⟨[]⟩).db = [] ∧
     (createTallerHandler reqSinPortada "T9" "portada-x.png"
        "2025-01-01T00:00:00.000Z" true [] ⟨[]⟩).s3 = ⟨[]⟩ ∧
     (createTallerHandler reqSinPortada "T9" "portada-x.png"
        "2025-01-01T00:00:00.000Z" true [] ⟨[]⟩).item = none ∧
     (createTallerHandler reqSinPortada "T9" "portada-x.png"
        "2025-01-01T00:00:00.000Z" true [] ⟨[]⟩).trace = []) :=
  ⟨Or.inr (Or.inr rfl),
    createTaller_validation_no_write reqSinPortada "T9" "portada-x.png"
      "2025-01-01T00:00:00.000Z" true [] ⟨[]⟩ (Or.inr (Or.inr rfl))⟩

/-- Concrete witness for `createTaller_default_difficulty` (claim C9,
amended). -/
theorem createTaller_default_difficulty_witness :
    falsy reqR.nombre = false ∧ falsy reqR.descripcion = false ∧
    reqR.portada = some ⟨"p.png", "image/png", "bytes"⟩ ∧
    reqR.nivelDificultad = none ∧
    ∃ item,
      (createTallerHandler reqR "T9" "portada-x.png"
        "2025-01-01T00:00:00.000Z" true [] ⟨[]⟩).item = some item ∧
      dbGet (createTallerHandler reqR "T9" "portada-x.png"
        "2025-01-01T00:00:00.000Z" true [] ⟨[]⟩).db "T9" = some item ∧
      item.nivelDificultad = "FÁCIL" :=
  ⟨by decide, by decide, by decide, rfl,
    createTaller_default_difficulty reqR "T9" "portada-x.png"
      "2025-01-01T00:00:00.000Z" [] ⟨[]⟩ ⟨"p.png", "image/png", "bytes"⟩
      (by decide) (by decide) (by decide) rfl⟩

/-! ## Claims C6 and C10: add-slide error paths -/

/-- C6: adding a slide to a workshop id that is not in the table returns
404, and the only AWS call made is the existence check — in particular no
object is uploaded to S3, so no blob ever appears under the nonexistent
id's key prefix. -/
theorem addSlide_notFound_no_upload (req : AddSlideReq)
    (slideId imagenFileName now : String) (s3ok : Bool)
    (db : RecordStore) (s3 : S3Store)
    (hdescr : falsy req.descripcion = false)
    (habs : dbGet db req.tallerId = none) :
    (addSlideHandler req slideId imagenFileName now s3ok db s3).status = 404 ∧
    (addSlideHandler req slideId imagenFileName now s3ok db s3).s3 = s3 ∧
    (addSlideHandler req slideId imagenFileName now s3ok db s3).db = db ∧
    (addSlideHandler req slideId imagenFileName now s3ok db s3).trace =
      [.dynamoGet req.tallerId] := by
  simp [addSlideHandler, hdescr, habs]

/-- Concrete witness for `addSlide_notFound_no_upload` (claim C6). -/
theorem addSlide_notFound_no_upload_witness :
    falsy (some "montar la base") = false ∧
    dbGet [tallerT1] "NOPE" = none ∧
    ((addSlideHandler ⟨"NOPE", some "montar la base",
        some ⟨"s.png", "image/png", "img"⟩⟩ "S1" "f.png"
        "2025-01-01T00:00:00.000Z" true [tallerT1] s3T1).status = 404 ∧
     (addSlideHandler ⟨"NOPE", some "montar la base",
        some ⟨"s.png", "image/png", "img"⟩⟩ "S1" "f.png"
        "2025-01-01T00:00:00.000Z" true [tallerT1] s3T1).s3 = s3T1 ∧
     (addSlideHandler ⟨"NOPE", some "montar la base",
        some ⟨"s.png", "image/png", "img"⟩⟩ "S1" "f.png"
        "2025-01-01T00:00:00.000Z" true [tallerT1] s3T1).db = [tallerT1] ∧
     (addSlideHandler ⟨"NOPE", some "montar la base",
        some ⟨"s.png", "image/png", "img"⟩⟩ "S1" "f.png"
        "2025-01-01T00:00:00.000Z" true [tallerT1] s3T1).trace =
       [.dynamoGet "NOPE"]) :=
  ⟨by decide, by decide,
    addSlide_notFound_no_upload ⟨"NOPE", some "montar la base",
        some ⟨"s.png", "image/png", "img"⟩⟩ "S1" "f.png"
      "2025-01-01T00:00:00.000Z" true [tallerT1] s3T1 (by decide) (by decide)⟩

/-- C10: an add-slide request whose `descripcion` is missing (or empty)
returns 400 immediately: no AWS call at all is made (the trace is empty, so
in particular the existence check never runs and the result is 400, not
404, even when the workshop id does not exist). -/
theorem addSlide_missing_descripcion (req : AddSlideReq)
    (slideId imagenFileName now : String) (s3ok : Bool)
    (db : RecordStore) (s3 : S3Store)
    (hdescr : falsy req.descripcion = true) :
    (addSlideHandler req slideId imagenFileName now s3ok db s3).status = 400 ∧
    (addSlideHandler req slideId imagenFileName now s3ok db s3).db = db ∧
    (addSlideHandler req slideId imagenFileName now s3ok db s3).s3 = s3 ∧
    (addSlideHandler req slideId imagenFileName now s3ok db s3).trace = [] := by
  simp [addSlideHandler, hdescr]

/-- Concrete witness for `addSlide_missing_descripcion` (claim C10): the
workshop id does not exist in the (empty) table, yet the missing
description still yields 400 with no store contacted. -/
theorem addSlide_missing_descripcion_witness :
    falsy (none : Option String) = true ∧
    dbGet [] "NOPE" = none ∧
    ((addSlideHandler ⟨"NOPE", none, none⟩ "S1" "f.png"
        "2025-01-01T00:00:00.000Z" true [] ⟨[]⟩).status = 400 ∧
     (addSlideHandler ⟨"NOPE", none, none⟩ "S1" "f.png"
        "2025-01-01T00:00:00.000Z" true [] ⟨[]⟩).db = [] ∧
     (addSlideHandler ⟨"NOPE", none, none⟩ "S1" "f.png"
        "2025-01-01T00:00:00.000Z" true [] ⟨[]⟩).s3 = ⟨[]⟩ ∧
     (addSlideHandler ⟨"NOPE", none, none⟩ "S1" "f.png"
        "2025-01-01T00:00:00.000Z" true [] ⟨[]⟩).trace = []) :=
  ⟨rfl, rfl,
    addSlide_missing_descripcion ⟨"NOPE", none, none⟩ "S1" "f.png"
      "2025-01-01T00:00:00.000Z" true [] ⟨[]⟩ rfl⟩

/-! ## Claim C8: projected listing -/

/-- C8: `GET /talleres` returns every record of the table, each projected
to exactly the attributes of the scan's `ProjectionExpression`; every key
of every returned element is one of the requested summary fields, and in
particular `slides` never appears. -/
theorem listTalleres_projection (db : RecordStore) :
    listTalleresHandler db = db.map (projectItem projectionFields) ∧
    ∀ item ∈ listTalleresHandler db, ∀ kv ∈ item,
      kv.1 ∈ projectionFields ∧ kv.1 ≠ "slides" := by
  refine ⟨rfl, ?_⟩
  intro item hitem kv hkv
  simp only [listTalleresHandler, List.mem_map] at hitem
  obtain ⟨t, _, rfl⟩ := hitem
  simp only [projectItem, List.mem_filterMap] at hkv
  obtain ⟨f, hf, hgf⟩ := hkv
  obtain ⟨v, _, hkv2⟩ := Option.map_eq_some'.mp hgf
  subst hkv2
  refine ⟨hf, ?_⟩
  simp only [projectionFields, List.mem_cons, List.not_mem_nil, or_false] at hf
  rcases hf with rfl | rfl | rfl | rfl | rfl | rfl | rfl <;> simp

/-- Concrete witness for `listTalleres_projection` (claim C8). -/
theorem listTalleres_projection_witness :
    projectItem projectionFields tallerT1 ∈ listTalleresHandler [tallerT1] ∧
    ("id", AttrValue.s "T1") ∈ projectItem projectionFields tallerT1 ∧
    (("id", AttrValue.s "T1").1 ∈ projectionFields ∧
     ("id", AttrValue.s "T1").1 ≠ "slides") :=
  ⟨by decide, by decide,
    (listTalleres_projection [tallerT1]).2
      (projectItem projectionFields tallerT1) (by decide)
      ("id", AttrValue.s "T1") (by decide)⟩

/-! ## Claim C7: delete ordering -/

theorem dbGet_dbDelete_self (db : RecordStore) (id : String) :
    dbGet (dbDelete db id) id = none := by
  induction db with
  | nil => rfl
  | cons t rest ih =>
      by_cases h : t.id = id
      · simp only [dbGet, dbDelete, List.filter_cons] at ih ⊢
        simp [h, ih]
      · simp only [dbGet, dbDelete, List.filter_cons] at ih ⊢
        simp [h, List.find?_cons, ih]

/-- A truncated listing with a positive page size returns a nonempty page. -/
theorem s3ListPage_truncated_nonempty (s3 : S3Store) (pfx : String)
    (pageLimit : Nat) (hpage : 0 < pageLimit)
    (ht : (s3ListPage s3 pfx pageLimit).2 = true) :
    0 < (s3ListPage s3 pfx pageLimit).1.length := by
  simp only [s3ListPage, decide_eq_true_eq] at ht ⊢
  rw [List.length_take]
  omega

/-- C7: on an existing workshop, the delete handler removes the S3 blobs
before the DynamoDB record (the success trace lists `deleteObjects`
strictly before the record delete); if the listing fails, or the bulk
delete of a nonempty listing fails, the handler returns 500 and leaves
both stores untouched (the record is not deleted); and a truncated listing
is only surfaced as a warning — the call still succeeds with 200 and the
record is still deleted. -/
theorem deleteTaller_blobs_before_record (tallerId : String) (pageLimit : Nat)
    (listOk deleteOk : Bool) (db : RecordStore) (s3 : S3Store) (t : Taller)
    (hget : dbGet db tallerId = some t) (hpage : 0 < pageLimit) :
    (listOk = false →
      (deleteTallerHandler tallerId pageLimit listOk deleteOk db s3).status
          = 500 ∧
      (deleteTallerHandler tallerId pageLimit listOk deleteOk db s3).db = db ∧
      (deleteTallerHandler tallerId pageLimit listOk deleteOk db s3).s3 = s3) ∧
    (listOk = true → deleteOk = false →
      0 < (s3ListPage s3 ("talleres/" ++ tallerId ++ "/") pageLimit).1.length →
      (deleteTallerHandler tallerId pageLimit listOk deleteOk db s3).status
          = 500 ∧
      (deleteTallerHandler tallerId pageLimit listOk deleteOk db s3).db = db ∧
      (deleteTallerHandler tallerId pageLimit listOk deleteOk db s3).s3 = s3) ∧
    (listOk = true → deleteOk = true →
      0 < (s3ListPage s3 ("talleres/" ++ tallerId ++ "/") pageLimit).1.length →
      (deleteTallerHandler tallerId pageLimit listOk deleteOk db s3).status
          = 200 ∧
      dbGet (deleteTallerHandler tallerId pageLimit listOk deleteOk db s3).db
          tallerId = none ∧
      (deleteTallerHandler tallerId pageLimit listOk deleteOk db s3).s3 =
        s3DeleteKeys s3
          (s3ListPage s3 ("talleres/" ++ tallerId ++ "/") pageLimit).1 ∧
      (deleteTallerHandler tallerId pageLimit listOk deleteOk db s3).trace =
        [.dynamoGet tallerId, .s3List ("talleres/" ++ tallerId ++ "/"),
         .s3DeleteObjects
           (s3ListPage s3 ("talleres/" ++ tallerId ++ "/") pageLimit).1,
         .dynamoDelete tallerId]) ∧
    (listOk = true → deleteOk = true →
      (s3ListPage s3 ("talleres/" ++ tallerId ++ "/") pageLimit).2 = true →
      (deleteTallerHandler tallerId pageLimit listOk deleteOk db s3).status
          = 200 ∧
      (deleteTallerHandler tallerId pageLimit listOk deleteOk db s3).warnings
          ≠ []) := by
  refine ⟨?_, ?_, ?_, ?_⟩
  · rintro rfl
    simp [deleteTallerHandler, hget]
  · rintro rfl rfl hlen
    simp only [deleteTallerHandler, hget, if_true]
    rw [if_pos hlen]
    simp
  · rintro rfl rfl hlen
    simp only [deleteTallerHandler, hget, if_true]
    rw [if_pos hlen]
    simp [dbGet_dbDelete_self]
  · rintro rfl rfl ht
    have hlen := s3ListPage_truncated_nonempty s3 _ pageLimit hpage ht
    simp only [deleteTallerHandler, hget, if_true]
    rw [if_pos hlen]
    simp [ht]

/-- Concrete witness for `deleteTaller_blobs_before_record` (claim C7):
the success path on a workshop with one blob. -/
theorem deleteTaller_blobs_before_record_witness :
    dbGet [tallerT1] "T1" = some tallerT1 ∧
    (0 : Nat) < 1000 ∧
    0 < (s3ListPage s3T1 ("talleres/" ++ "T1" ++ "/") 1000).1.length ∧
    ((deleteTallerHandler "T1" 1000 true true [tallerT1] s3T1).status = 200 ∧
     dbGet (deleteTallerHandler "T1" 1000 true true [tallerT1] s3T1).db "T1"
         = none ∧
     (deleteTallerHandler "T1" 1000 true true [tallerT1] s3T1).s3 =
       s3DeleteKeys s3T1
         (s3ListPage s3T1 ("talleres/" ++ "T1" ++ "/") 1000).1 ∧
     (deleteTallerHandler "T1" 1000 true true [tallerT1] s3T1).trace =
       [.dynamoGet "T1", .s3List ("talleres/" ++ "T1" ++ "/"),
        .s3DeleteObjects (s3ListPage s3T1 ("talleres/" ++ "T1" ++ "/") 1000).1,
        .dynamoDelete "T1"]) :=
  ⟨by decide, by decide, by decide,
    (deleteTaller_blobs_before_record "T1" 1000 true true [tallerT1] s3T1
      tallerT1 (by decide) (by decide)).2.2.1 rfl rfl (by decide)⟩

end ApiAws
